import Mathlib

/-!
# Verification of `adanet/core/testing_utils.py`

A shallow embedding of the test-support module of the AdaNet repository.
TensorFlow 1.x graph construction is purely symbolic: every `tf.*` call made
by this module builds a graph node and performs no numeric computation, so
tensors are embedded as a symbolic expression tree (`Tensor`).  Python
numbers are embedded as `Rat`; values that may be either a Python float or a
tensor (the `loss` / `adanet_loss` arguments) are embedded as `TensorOrFloat`.
Record types that the module merely constructs (`WeightedSubnetwork`,
`Subnetwork`, `ComplexityRegularized`, `_EnsembleSpec`, `EstimatorSpec`) are
namedtuple-like containers and are embedded as structures with exactly the
fields the module passes.  The test-case directory management is embedded
against a filesystem state given by the list of existing directory paths.
-/

/-- Data acceptable to `tf.constant` / `tf.data.Dataset.from_tensors` in this
module: a scalar, a flat list, or a nested (2-D) list of numbers. -/
inductive TensorData where
  | scalar (v : Rat)
  | vec (elems : List Rat)
  | mat (rows : List (List Rat))
  deriving DecidableEq, Repr

/-- Symbolic TF graph nodes, one constructor per graph-building operation the
module performs. -/
inductive Tensor where
  /-- `tf.random_normal(shape=shape, seed=seed)`. -/
  | random_normal (shape : List Nat) (seed : Int)
  /-- `tf.Variable(init, trainable=False).read_value()`. -/
  | variableRead (init : Tensor)
  /-- `tf.constant(value)` resp. `tf.constant(value, name=name)`. -/
  | constant (value : TensorData) (name : Option String)
  /-- `tf.abs(t)`. -/
  | abs (t : Tensor)
  /-- `tf.cast(t, dtype=tf.int64)`. -/
  | castInt64 (t : Tensor)
  /-- `tf.as_string(t)`. -/
  | as_string (t : Tensor)
  /-- `tf.no_op()`. -/
  | no_op
  /-- `tf.data.Dataset.from_tensors(value).make_one_shot_iterator().get_next()`. -/
  | datasetOneShotNext (value : TensorData)
  deriving DecidableEq, Repr

/-- A Python value that is either a tensor or a raw float: the type of the
`loss` / `adanet_loss` arguments and of the stored `loss` fields. -/
inductive TensorOrFloat where
  | tensor (t : Tensor)
  | float (v : Rat)
  deriving DecidableEq, Repr

/-- `tf.convert_to_tensor`: a tensor is returned unchanged, a float becomes a
constant tensor. -/
def convert_to_tensor : TensorOrFloat → Tensor
  | .tensor t => t
  | .float v => .constant (.scalar v) none

/-- `dummy_tensor(shape, random_seed)`: a randomly initialized tensor,
`tf.Variable(tf.random_normal(shape=shape, seed=random_seed), trainable=False).read_value()`. -/
def dummy_tensor (shape : List Nat) (random_seed : Int) : Tensor :=
  Tensor.variableRead (Tensor.random_normal shape random_seed)

/-- `ExportOutputKeys.CLASSIFICATION_CLASSES`. -/
def ExportOutputKeys.CLASSIFICATION_CLASSES : String := "classification_classes"

/-- `ExportOutputKeys.CLASSIFICATION_SCORES`. -/
def ExportOutputKeys.CLASSIFICATION_SCORES : String := "classification_scores"

/-- `ExportOutputKeys.REGRESSION`. -/
def ExportOutputKeys.REGRESSION : String := "regression"

/-- `ExportOutputKeys.PREDICTION`. -/
def ExportOutputKeys.PREDICTION : String := "prediction"

/-- `ExportOutputKeys.INVALID`. -/
def ExportOutputKeys.INVALID : String := "invalid"

/-- The `predictions` value built by `dummy_ensemble_spec`: either a single
logits tensor, or the dictionary of tensors built when `dict_predictions`. -/
inductive Predictions where
  | single (t : Tensor)
  | dict (entries : List (String × Tensor))
  deriving DecidableEq, Repr

/-- A value stored in an export-outputs dictionary: one of the three
`tf.estimator.export` output classes, or (for the `"invalid"` key) the raw
predictions value, which is not an export-output object at all. -/
inductive ExportOutput where
  /-- `tf.estimator.export.ClassificationOutput(classes=...)`. -/
  | classificationClasses (classes : Tensor)
  /-- `tf.estimator.export.ClassificationOutput(scores=...)`. -/
  | classificationScores (scores : Tensor)
  /-- `tf.estimator.export.RegressionOutput(value=...)`. -/
  | regression (value : Tensor)
  /-- `tf.estimator.export.PredictOutput(outputs=...)`. -/
  | predict (outputs : Predictions)
  /-- The raw predictions value stored as-is (the `"invalid"` stub). -/
  | raw (p : Predictions)
  deriving DecidableEq, Repr

/-- Whether the stored value is an actual `tf.estimator.export` output
object, as opposed to the raw-predictions stub. -/
def ExportOutput.isExportOutputObject : ExportOutput → Bool
  | .raw _ => false
  | _ => true

/-- `adanet.core.subnetwork.Subnetwork` (a namedtuple defined outside this
file): embedded with exactly the fields `dummy_ensemble_spec` passes. -/
structure Subnetwork where
  last_layer : Tensor
  logits : Tensor
  complexity : Rat
  persisted_tensors : List (String × Tensor)
  deriving DecidableEq, Repr

/-- `adanet.core.ensemble.WeightedSubnetwork` (a namedtuple defined outside
this file): embedded with exactly the fields `dummy_ensemble_spec` passes. -/
structure WeightedSubnetwork where
  name : String
  iteration_number : Nat
  logits : Tensor
  weight : Tensor
  subnetwork : Subnetwork
  deriving DecidableEq, Repr

/-- `adanet.core.ensemble.ComplexityRegularized` ensemble record. -/
structure ComplexityRegularized where
  weighted_subnetworks : List WeightedSubnetwork
  bias : Tensor
  logits : Tensor
  deriving DecidableEq, Repr

/-- Opaque stand-in for `adanet.core.architecture._Architecture()` (defined
outside this file; `dummy_ensemble_spec` only calls its nullary ctor). -/
inductive Architecture where
  | empty
  deriving DecidableEq, Repr

/-- `adanet.core.ensemble_builder._EnsembleSpec` record.  `eval_metrics` and
`subnetwork_builders` are opaque pass-through arguments and are embedded as
opaque handles. -/
structure EnsembleSpec where
  name : String
  ensemble : ComplexityRegularized
  architecture : Architecture
  subnetwork_builders : Option (List Nat)
  predictions : Predictions
  loss : TensorOrFloat
  adanet_loss : Tensor
  train_op : Option Tensor
  eval_metrics : Option Nat
  export_outputs : Option (List (String × ExportOutput))
  deriving DecidableEq, Repr

/-- Python list repetition `l * n`. -/
def pyListMul (l : List α) (n : Nat) : List α :=
  (List.replicate n l).flatten

/-- `_dummy_export_outputs(export_output_key, logits, predictions)`:
the dictionary for the given key, `None` for any other key. -/
def _dummy_export_outputs (export_output_key : Option String) (logits : Tensor)
    (predictions : Predictions) : Option (List (String × ExportOutput)) :=
  if export_output_key = some ExportOutputKeys.CLASSIFICATION_CLASSES then
    some [(ExportOutputKeys.CLASSIFICATION_CLASSES,
           ExportOutput.classificationClasses (Tensor.as_string logits))]
  else if export_output_key = some ExportOutputKeys.CLASSIFICATION_SCORES then
    some [(ExportOutputKeys.CLASSIFICATION_SCORES,
           ExportOutput.classificationScores logits)]
  else if export_output_key = some ExportOutputKeys.REGRESSION then
    some [(ExportOutputKeys.REGRESSION, ExportOutput.regression logits)]
  else if export_output_key = some ExportOutputKeys.PREDICTION then
    some [(ExportOutputKeys.PREDICTION, ExportOutput.predict predictions)]
  else if export_output_key = some ExportOutputKeys.INVALID then
    some [(ExportOutputKeys.INVALID, ExportOutput.raw predictions)]
  else
    none

/-- `dummy_ensemble_spec(...)`.  Python defaults at the call sites are
`random_seed=42`, `num_subnetworks=1`, `bias=0.`, and `None`/`False` for the
rest. -/
def dummy_ensemble_spec (name : String) (random_seed : Int) (num_subnetworks : Nat)
    (bias : Rat) (loss : Option TensorOrFloat) (adanet_loss : Option TensorOrFloat)
    (eval_metrics : Option Nat) (dict_predictions : Bool)
    (export_output_key : Option String) (subnetwork_builders : Option (List Nat))
    (train_op : Option Tensor) : EnsembleSpec :=
  let lossVal : TensorOrFloat :=
    match loss with
    | none => .tensor (dummy_tensor [] random_seed)
    | some l => l
  let adanetLossVal : Tensor :=
    match adanet_loss with
    | none => dummy_tensor [] (random_seed * 2)
    | some a => convert_to_tensor a
  let logits := dummy_tensor [] (random_seed * 3)
  let predictions : Predictions :=
    if dict_predictions then
      .dict [("logits", logits), ("classes", Tensor.castInt64 (Tensor.abs logits))]
    else
      .single logits
  let weighted_subnetworks : List WeightedSubnetwork :=
    [{ name := name
       iteration_number := 1
       logits := dummy_tensor [2, 1] (random_seed * 4)
       weight := dummy_tensor [2, 1] (random_seed * 4)
       subnetwork :=
         { last_layer := dummy_tensor [1, 2] (random_seed * 4)
           logits := dummy_tensor [2, 1] (random_seed * 4)
           complexity := 1
           persisted_tensors := [] } }]
  let export_outputs := _dummy_export_outputs export_output_key logits predictions
  let biasTensor := Tensor.constant (.scalar bias) none
  { name := name
    ensemble :=
      { weighted_subnetworks := pyListMul weighted_subnetworks num_subnetworks
        bias := biasTensor
        logits := logits }
    architecture := Architecture.empty
    subnetwork_builders := subnetwork_builders
    predictions := predictions
    loss := lossVal
    adanet_loss := adanetLossVal
    train_op := train_op
    eval_metrics := eval_metrics
    export_outputs := export_outputs }

/-- `tf.estimator.ModeKeys.TRAIN`. -/
def ModeKeys.TRAIN : String := "train"

/-- `tf.estimator.EstimatorSpec` record with the fields this module passes.
`eval_metric_ops` is an opaque pass-through argument. -/
structure EstimatorSpec where
  mode : String
  predictions : Tensor
  loss : TensorOrFloat
  train_op : Tensor
  eval_metric_ops : Option Nat
  deriving DecidableEq, Repr

/-- `dummy_estimator_spec(loss, random_seed, eval_metric_ops)`.  Python
defaults at the call sites are `loss=None`, `random_seed=42`,
`eval_metric_ops=None`. -/
def dummy_estimator_spec (loss : Option TensorOrFloat) (random_seed : Int)
    (eval_metric_ops : Option Nat) : EstimatorSpec :=
  let lossVal : TensorOrFloat :=
    match loss with
    | none => .tensor (dummy_tensor [] random_seed)
    | some l => l
  { mode := ModeKeys.TRAIN
    predictions := dummy_tensor [] (random_seed * 2)
    loss := lossVal
    train_op := Tensor.no_op
    eval_metric_ops := eval_metric_ops }

/-- `dummy_input_fn(features, labels)`: returns the inner `_input_fn(params)`,
which deletes `params` unused and returns
`({"x": tf.constant(features, name="x")}, tf.constant(labels, name="y"))`.
`params` is embedded as an opaque optional handle. -/
def dummy_input_fn (features : TensorData) (labels : TensorData) :
    Option Nat → (List (String × Tensor)) × Tensor :=
  fun _params =>
    let input_features := [("x", Tensor.constant features (some "x"))]
    let input_labels := Tensor.constant labels (some "y")
    (input_features, input_labels)

/-- `dataset_input_fn(features, labels)`: returns the inner `_input_fn(params)`
yielding feature and label tensors via one-shot `Dataset` iterators; labels may
be `None`.  Python defaults are `features=8.`, `labels=9.`. -/
def dataset_input_fn (features : Rat) (labels : Option Rat) :
    Option Nat → (List (String × Tensor)) × Option Tensor :=
  fun _params =>
    let input_features := Tensor.datasetOneShotNext (.vec [features])
    let input_labels : Option Tensor :=
      match labels with
      | some l => some (Tensor.datasetOneShotNext (.vec [l]))
      | none => none
    ([("x", input_features)], input_labels)

/-!
## Filesystem model for `AdanetTestCase`

The state is the list of existing directory paths.  `shutil.rmtree` removes
the whole subtree rooted at a path; with `ignore_errors=True` a missing path
is silently ignored, otherwise it raises.  `os.makedirs` raises when the
path already exists.  `os.path.join` is embedded for the relative-second-
argument case used here.
-/

/-- The filesystem: the list of existing directory paths. -/
abbrev FS := List String

/-- `os.path.exists`-style check used by the model. -/
def dirExists (fs : FS) (path : String) : Bool :=
  decide (path ∈ fs)

/-- Whether `q` lies in the subtree rooted at `root` (including `root`). -/
def pathWithin (root q : String) : Bool :=
  decide (root = q) || q.startsWith (root ++ "/")

/-- The paths surviving removal of the subtree rooted at `root`. -/
def removeTree (fs : FS) (root : String) : FS :=
  List.filter (fun q => !(pathWithin root q)) fs

/-- `shutil.rmtree(path, ignore_errors=ignore_errors)`: removes the subtree
rooted at `path`; on a missing path it raises unless `ignore_errors`. -/
def shutil_rmtree (fs : FS) (path : String) (ignore_errors : Bool) :
    Except String FS :=
  if dirExists fs path then .ok (removeTree fs path)
  else if ignore_errors then .ok fs
  else .error "No such file or directory"

/-- `os.makedirs(path)`: raises when the path already exists. -/
def os_makedirs (fs : FS) (path : String) : Except String FS :=
  if dirExists fs path then .error "File exists"
  else .ok (path :: fs)

/-- `os.path.join(a, b)` for the relative `b` used here. -/
def os_path_join (a b : String) : String :=
  a ++ "/" ++ b

/-- `self.test_subdirectory = os.path.join(tf.flags.FLAGS.test_tmpdir, self.id())`. -/
def test_subdirectory (test_tmpdir : String) (test_id : String) : String :=
  os_path_join test_tmpdir test_id

/-- `AdanetTestCase.setUp`: after the superclass `setUp` (a filesystem no-op),
removes any existing directory at `test_subdirectory` with errors ignored,
then creates it. -/
def AdanetTestCase.setUp (fs : FS) (test_tmpdir : String) (test_id : String) :
    Except String FS :=
  let sub := test_subdirectory test_tmpdir test_id
  match shutil_rmtree fs sub true with
  | .error e => .error e
  | .ok fs1 => os_makedirs fs1 sub

/-- `AdanetTestCase.tearDown`: after the superclass `tearDown` (a filesystem
no-op), removes `test_subdirectory` with errors ignored. -/
def AdanetTestCase.tearDown (fs : FS) (test_tmpdir : String) (test_id : String) :
    Except String FS :=
  shutil_rmtree fs (test_subdirectory test_tmpdir test_id) true

/-!
## Module-state threading

The factories read no module-level mutable binding and assign none (the
Python source has no `global` statement and no module-level mutable
container).  Each factory is re-embedded statement by statement as a
transformer of an abstract module state `σ`, threading the state through
every step; the frame theorem then states that the state is returned
unchanged and the result coincides with the pure embedding, for every state.
-/

/-- `dummy_tensor` as a module-state transformer. -/
def dummy_tensor_mod {σ : Type} (g : σ) (shape : List Nat) (random_seed : Int) :
    Tensor × σ :=
  let (node, g) := (Tensor.random_normal shape random_seed, g)
  let (node, g) := (Tensor.variableRead node, g)
  (node, g)

/-- `dummy_ensemble_spec` as a module-state transformer. -/
def dummy_ensemble_spec_mod {σ : Type} (g : σ) (name : String) (random_seed : Int)
    (num_subnetworks : Nat) (bias : Rat) (loss : Option TensorOrFloat)
    (adanet_loss : Option TensorOrFloat) (eval_metrics : Option Nat)
    (dict_predictions : Bool) (export_output_key : Option String)
    (subnetwork_builders : Option (List Nat)) (train_op : Option Tensor) :
    EnsembleSpec × σ :=
  let (lossVal, g) : TensorOrFloat × σ :=
    match loss with
    | none =>
        let (t, g) := dummy_tensor_mod g [] random_seed
        (.tensor t, g)
    | some l => (l, g)
  let (adanetLossVal, g) : Tensor × σ :=
    match adanet_loss with
    | none => dummy_tensor_mod g [] (random_seed * 2)
    | some a => (convert_to_tensor a, g)
  let (logits, g) := dummy_tensor_mod g [] (random_seed * 3)
  let (predictions, g) : Predictions × σ :=
    if dict_predictions then
      (.dict [("logits", logits), ("classes", Tensor.castInt64 (Tensor.abs logits))], g)
    else
      (.single logits, g)
  let (weighted_subnetworks, g) : List WeightedSubnetwork × σ :=
    ([{ name := name
        iteration_number := 1
        logits := dummy_tensor [2, 1] (random_seed * 4)
        weight := dummy_tensor [2, 1] (random_seed * 4)
        subnetwork :=
          { last_layer := dummy_tensor [1, 2] (random_seed * 4)
            logits := dummy_tensor [2, 1] (random_seed * 4)
            complexity := 1
            persisted_tensors := [] } }], g)
  let (export_outputs, g) :=
    (_dummy_export_outputs export_output_key logits predictions, g)
  let (biasTensor, g) := (Tensor.constant (.scalar bias) none, g)
  ({ name := name
     ensemble :=
       { weighted_subnetworks := pyListMul weighted_subnetworks num_subnetworks
         bias := biasTensor
         logits := logits }
     architecture := Architecture.empty
     subnetwork_builders := subnetwork_builders
     predictions := predictions
     loss := lossVal
     adanet_loss := adanetLossVal
     train_op := train_op
     eval_metrics := eval_metrics
     export_outputs := export_outputs }, g)

/-- `dummy_estimator_spec` as a module-state transformer. -/
def dummy_estimator_spec_mod {σ : Type} (g : σ) (loss : Option TensorOrFloat)
    (random_seed : Int) (eval_metric_ops : Option Nat) : EstimatorSpec × σ :=
  let (lossVal, g) : TensorOrFloat × σ :=
    match loss with
    | none =>
        let (t, g) := dummy_tensor_mod g [] random_seed
        (.tensor t, g)
    | some l => (l, g)
  let (predictions, g) := dummy_tensor_mod g [] (random_seed * 2)
  ({ mode := ModeKeys.TRAIN
     predictions := predictions
     loss := lossVal
     train_op := Tensor.no_op
     eval_metric_ops := eval_metric_ops }, g)

/-- `dummy_input_fn` as a module-state transformer. -/
def dummy_input_fn_mod {σ : Type} (g : σ) (features : TensorData)
    (labels : TensorData) :
    (Option Nat → (List (String × Tensor)) × Tensor) × σ :=
  (dummy_input_fn features labels, g)

/-- `dataset_input_fn` as a module-state transformer. -/
def dataset_input_fn_mod {σ : Type} (g : σ) (features : Rat)
    (labels : Option Rat) :
    (Option Nat → (List (String × Tensor)) × Option Tensor) × σ :=
  (dataset_input_fn features labels, g)

/-!
## Field enumeration for the weighted-subnetwork record
-/

/-- A field value of a `WeightedSubnetwork` or its nested `Subnetwork`. -/
inductive FieldVal where
  | str (s : String)
  | nat (n : Nat)
  | rat (q : Rat)
  | tensor (t : Tensor)
  | tensorMap (m : List (String × Tensor))
  deriving DecidableEq, Repr

/-- All fields of a `WeightedSubnetwork`, the fields of its nested
`Subnetwork` included. -/
def wsFields (w : WeightedSubnetwork) : List FieldVal :=
  [.str w.name, .nat w.iteration_number, .tensor w.logits, .tensor w.weight,
   .tensor w.subnetwork.last_layer, .tensor w.subnetwork.logits,
   .rat w.subnetwork.complexity, .tensorMap w.subnetwork.persisted_tensors]

/-- The field is a randomly initialized tensor whose seed is derived from
`random_seed` (a multiple of it, as every `dummy_tensor` call in
`dummy_ensemble_spec` uses `random_seed * k`). -/
def FieldVal.isRandomTensorFrom (random_seed : Int) (f : FieldVal) : Prop :=
  ∃ shape k, f = FieldVal.tensor (dummy_tensor shape (random_seed * k))

/-!
## Helper lemmas
-/

/-- Python `[a] * n` is `n` copies of `a`. -/
theorem pyListMul_singleton (a : α) : ∀ n : Nat, pyListMul [a] n = List.replicate n a
  | 0 => rfl
  | n + 1 => by
      have ih := pyListMul_singleton a n
      simp only [pyListMul, List.replicate_succ, List.flatten_cons] at ih ⊢
      simp [ih]

/-- The root of a subtree lies within it. -/
theorem pathWithin_self (root : String) : pathWithin root root = true := by
  simp [pathWithin]

/-- After removing a subtree, its root no longer exists. -/
theorem dirExists_removeTree_self (fs : FS) (root : String) :
    dirExists (removeTree fs root) root = false := by
  simp [dirExists, removeTree, List.mem_filter, pathWithin_self]

/-- After removing a subtree, nothing within it remains. -/
theorem filter_removeTree (fs : FS) (root : String) :
    List.filter (fun q => pathWithin root q) (removeTree fs root) = [] := by
  induction fs with
  | nil => rfl
  | cons a l ih =>
      unfold removeTree at ih ⊢
      cases hp : pathWithin root a <;> simp [List.filter_cons, hp, ih]

/-!
## Claim theorems
-/

/-- C1: for every name, logits and predictions, calling `dummy_ensemble_spec`
with `export_output_key = ExportOutputKeys.INVALID` ("invalid") does not raise
(the embedding is total at that key and produces a spec), the spec's
`export_outputs` is the dictionary mapping "invalid" to the raw predictions
value, and that stored value is a stub, not a valid export-output object. -/
theorem invalid_export_key_silently_returns_stub :
    (∀ (name : String) (random_seed : Int) (num_subnetworks : Nat) (bias : Rat)
       (loss adanet_loss : Option TensorOrFloat) (eval_metrics : Option Nat)
       (dict_predictions : Bool) (subnetwork_builders : Option (List Nat))
       (train_op : Option Tensor),
       (dummy_ensemble_spec name random_seed num_subnetworks bias loss adanet_loss
           eval_metrics dict_predictions (some ExportOutputKeys.INVALID)
           subnetwork_builders train_op).export_outputs =
         some [(ExportOutputKeys.INVALID,
                ExportOutput.raw (dummy_ensemble_spec name random_seed
                  num_subnetworks bias loss adanet_loss eval_metrics
                  dict_predictions (some ExportOutputKeys.INVALID)
                  subnetwork_builders train_op).predictions)]) ∧
    (∀ (logits : Tensor) (predictions : Predictions),
       _dummy_export_outputs (some ExportOutputKeys.INVALID) logits predictions =
         some [(ExportOutputKeys.INVALID, ExportOutput.raw predictions)]) ∧
    (∀ p : Predictions, (ExportOutput.raw p).isExportOutputObject = false) :=
  ⟨fun _ _ _ _ _ _ _ _ _ _ => rfl, fun _ _ => rfl, fun _ => rfl⟩

/-- C2: in `dummy_ensemble_spec` and `dummy_estimator_spec`, when `loss` is
`None` the returned spec's loss is a random scalar tensor generated from
`random_seed`; when `loss` is given, the given value is used unchanged. -/
theorem loss_defaulted_by_simple_conditional :
    (∀ (name : String) (random_seed : Int) (num_subnetworks : Nat) (bias : Rat)
       (adanet_loss : Option TensorOrFloat) (eval_metrics : Option Nat)
       (dict_predictions : Bool) (export_output_key : Option String)
       (subnetwork_builders : Option (List Nat)) (train_op : Option Tensor),
       (dummy_ensemble_spec name random_seed num_subnetworks bias none adanet_loss
           eval_metrics dict_predictions export_output_key subnetwork_builders
           train_op).loss = .tensor (dummy_tensor [] random_seed)) ∧
    (∀ (name : String) (random_seed : Int) (num_subnetworks : Nat) (bias : Rat)
       (l : TensorOrFloat) (adanet_loss : Option TensorOrFloat)
       (eval_metrics : Option Nat) (dict_predictions : Bool)
       (export_output_key : Option String) (subnetwork_builders : Option (List Nat))
       (train_op : Option Tensor),
       (dummy_ensemble_spec name random_seed num_subnetworks bias (some l)
           adanet_loss eval_metrics dict_predictions export_output_key
           subnetwork_builders train_op).loss = l) ∧
    (∀ (random_seed : Int) (eval_metric_ops : Option Nat),
       (dummy_estimator_spec none random_seed eval_metric_ops).loss =
         .tensor (dummy_tensor [] random_seed)) ∧
    (∀ (l : TensorOrFloat) (random_seed : Int) (eval_metric_ops : Option Nat),
       (dummy_estimator_spec (some l) random_seed eval_metric_ops).loss = l) :=
  ⟨fun _ _ _ _ _ _ _ _ _ _ => rfl, fun _ _ _ _ _ _ _ _ _ _ _ => rfl,
   fun _ _ => rfl, fun _ _ _ => rfl⟩

/-- C5: `dummy_input_fn(features, labels)` returns a function that ignores its
`params` argument and returns the pair of the dictionary mapping "x" to the
features as a named constant tensor, and the labels as a named constant
tensor. -/
theorem dummy_input_fn_ignores_params_returns_constants :
    ∀ (features labels : TensorData) (params : Option Nat),
      dummy_input_fn features labels params =
        ([("x", Tensor.constant features (some "x"))],
         Tensor.constant labels (some "y")) ∧
      ∀ params2 : Option Nat,
        dummy_input_fn features labels params = dummy_input_fn features labels params2 :=
  fun _ _ _ => ⟨rfl, fun _ => rfl⟩

/-- C10: `dummy_ensemble_spec` treats its two loss arguments asymmetrically —
a given `adanet_loss` is passed through `tf.convert_to_tensor` before being
stored while a given `loss` is stored as-is — and `dummy_estimator_spec`
always returns a spec in TRAIN mode whose train op is a no-op. -/
theorem loss_asymmetry_and_train_mode :
    (∀ (name : String) (random_seed : Int) (num_subnetworks : Nat) (bias : Rat)
       (loss : Option TensorOrFloat) (v : TensorOrFloat) (eval_metrics : Option Nat)
       (dict_predictions : Bool) (export_output_key : Option String)
       (subnetwork_builders : Option (List Nat)) (train_op : Option Tensor),
       (dummy_ensemble_spec name random_seed num_subnetworks bias loss (some v)
           eval_metrics dict_predictions export_output_key subnetwork_builders
           train_op).adanet_loss = convert_to_tensor v) ∧
    (∀ (name : String) (random_seed : Int) (num_subnetworks : Nat) (bias : Rat)
       (l : TensorOrFloat) (adanet_loss : Option TensorOrFloat)
       (eval_metrics : Option Nat) (dict_predictions : Bool)
       (export_output_key : Option String) (subnetwork_builders : Option (List Nat))
       (train_op : Option Tensor),
       (dummy_ensemble_spec name random_seed num_subnetworks bias (some l)
           adanet_loss eval_metrics dict_predictions export_output_key
           subnetwork_builders train_op).loss = l) ∧
    (∀ (loss : Option TensorOrFloat) (random_seed : Int) (eval_metric_ops : Option Nat),
       (dummy_estimator_spec loss random_seed eval_metric_ops).mode = ModeKeys.TRAIN ∧
       (dummy_estimator_spec loss random_seed eval_metric_ops).train_op = Tensor.no_op) :=
  ⟨fun _ _ _ _ _ _ _ _ _ _ _ => rfl, fun _ _ _ _ _ _ _ _ _ _ _ => rfl,
   fun _ _ _ => ⟨rfl, rfl⟩⟩

/-- C7: the factories hold no global state — re-embedded as transformers of an
arbitrary module state, each call leaves the state unchanged and its result
coincides with the pure embedding, so it depends only on its arguments. -/
theorem factories_have_no_global_state {σ : Type} (g : σ) :
    (∀ (shape : List Nat) (random_seed : Int),
       dummy_tensor_mod g shape random_seed = (dummy_tensor shape random_seed, g)) ∧
    (∀ (name : String) (random_seed : Int) (num_subnetworks : Nat) (bias : Rat)
       (loss adanet_loss : Option TensorOrFloat) (eval_metrics : Option Nat)
       (dict_predictions : Bool) (export_output_key : Option String)
       (subnetwork_builders : Option (List Nat)) (train_op : Option Tensor),
       dummy_ensemble_spec_mod g name random_seed num_subnetworks bias loss
           adanet_loss eval_metrics dict_predictions export_output_key
           subnetwork_builders train_op =
         (dummy_ensemble_spec name random_seed num_subnetworks bias loss
           adanet_loss eval_metrics dict_predictions export_output_key
           subnetwork_builders train_op, g)) ∧
    (∀ (loss : Option TensorOrFloat) (random_seed : Int) (eval_metric_ops : Option Nat),
       dummy_estimator_spec_mod g loss random_seed eval_metric_ops =
         (dummy_estimator_spec loss random_seed eval_metric_ops, g)) ∧
    (∀ (features labels : TensorData),
       dummy_input_fn_mod g features labels = (dummy_input_fn features labels, g)) ∧
    (∀ (features : Rat) (labels : Option Rat),
       dataset_input_fn_mod g features labels = (dataset_input_fn features labels, g)) := by
  refine ⟨fun _ _ => rfl, ?_, ?_, fun _ _ => rfl, fun _ _ => rfl⟩
  · intro _ _ _ _ loss adanet_loss _ dict_predictions _ _ _
    cases loss <;> cases adanet_loss <;> cases dict_predictions <;> rfl
  · intro loss _ _
    cases loss <;> rfl

/-- C9: for every `export_output_key` that is `None` or not one of the five
`ExportOutputKeys` values, `_dummy_export_outputs` returns `None`, hence the
spec returned by `dummy_ensemble_spec` has `export_outputs = None`; no error
is raised for an unrecognized key. -/
theorem unrecognized_export_key_yields_none
    (export_output_key : Option String)
    (h : export_output_key = none ∨
         (export_output_key ≠ some ExportOutputKeys.CLASSIFICATION_CLASSES ∧
          export_output_key ≠ some ExportOutputKeys.CLASSIFICATION_SCORES ∧
          export_output_key ≠ some ExportOutputKeys.REGRESSION ∧
          export_output_key ≠ some ExportOutputKeys.PREDICTION ∧
          export_output_key ≠ some ExportOutputKeys.INVALID)) :
    (∀ (logits : Tensor) (predictions : Predictions),
       _dummy_export_outputs export_output_key logits predictions = none) ∧
    (∀ (name : String) (random_seed : Int) (num_subnetworks : Nat) (bias : Rat)
       (loss adanet_loss : Option TensorOrFloat) (eval_metrics : Option Nat)
       (dict_predictions : Bool) (subnetwork_builders : Option (List Nat))
       (train_op : Option Tensor),
       (dummy_ensemble_spec name random_seed num_subnetworks bias loss adanet_loss
           eval_metrics dict_predictions export_output_key subnetwork_builders
           train_op).export_outputs = none) := by
  have h5 : export_output_key ≠ some ExportOutputKeys.CLASSIFICATION_CLASSES ∧
      export_output_key ≠ some ExportOutputKeys.CLASSIFICATION_SCORES ∧
      export_output_key ≠ some ExportOutputKeys.REGRESSION ∧
      export_output_key ≠ some ExportOutputKeys.PREDICTION ∧
      export_output_key ≠ some ExportOutputKeys.INVALID := by
    rcases h with h | h
    · subst h
      refine ⟨?_, ?_, ?_, ?_, ?_⟩ <;> intro hc <;> exact Option.noConfusion hc
    · exact h
  obtain ⟨h1, h2, h3, h4, hI⟩ := h5
  have hmain : ∀ (logits : Tensor) (predictions : Predictions),
      _dummy_export_outputs export_output_key logits predictions = none := by
    intro logits predictions
    unfold _dummy_export_outputs
    rw [if_neg h1, if_neg h2, if_neg h3, if_neg h4, if_neg hI]
  exact ⟨hmain, fun _ _ _ _ _ _ _ _ _ _ => hmain _ _⟩

/-- Witness for C9 at the concrete unrecognized key `"bogus"`. -/
theorem unrecognized_export_key_yields_none_witness :
    _dummy_export_outputs (some "bogus") (dummy_tensor [] 42)
        (Predictions.single (dummy_tensor [] 42)) = none ∧
    (dummy_ensemble_spec "foo" 42 1 0 none none none false (some "bogus")
        none none).export_outputs = none :=
  ⟨(unrecognized_export_key_yields_none (some "bogus") (by decide)).1 _ _,
   (unrecognized_export_key_yields_none (some "bogus") (by decide)).2
     "foo" 42 1 0 none none none false none none⟩

/-- C3: removing `test_subdirectory` — as done with `ignore_errors=True` in
both `setUp` and `tearDown` — never raises when the directory does not
exist. -/
theorem rmtree_missing_dir_never_raises (fs : FS) (test_tmpdir test_id : String)
    (h : dirExists fs (test_subdirectory test_tmpdir test_id) = false) :
    shutil_rmtree fs (test_subdirectory test_tmpdir test_id) true = .ok fs ∧
    AdanetTestCase.tearDown fs test_tmpdir test_id = .ok fs := by
  refine ⟨?_, ?_⟩ <;> simp [AdanetTestCase.tearDown, shutil_rmtree, h]

/-- Witness for C3 on an empty filesystem. -/
theorem rmtree_missing_dir_never_raises_witness :
    shutil_rmtree ([] : FS) (test_subdirectory "tmp" "test1") true = .ok [] ∧
    AdanetTestCase.tearDown ([] : FS) "tmp" "test1" = .ok [] :=
  rmtree_missing_dir_never_raises [] "tmp" "test1" (by decide)

/-- C6 (counterexample): at the concrete call
`dummy_ensemble_spec("foo", 42, 1, 0., None, ..., None)` it is not the case
that each field of the constructed `WeightedSubnetwork` (nested `Subnetwork`
fields included) is a randomly initialized tensor derived from `random_seed`:
the `iteration_number` field is the integer 1. -/
theorem weighted_subnetwork_not_all_fields_random_tensors :
    ¬ ∀ w ∈ (dummy_ensemble_spec "foo" 42 1 0 none none none false none
               none none).ensemble.weighted_subnetworks,
        ∀ f ∈ wsFields w, f.isRandomTensorFrom 42 := by
  intro h
  have h2 := h _ (List.Mem.head _) (FieldVal.nat 1)
      (List.Mem.tail _ (List.Mem.head _))
  obtain ⟨shape, k, heq⟩ := h2
  exact FieldVal.noConfusion heq

/-- C6 (amended): the weighted-subnetwork records constructed by
`dummy_ensemble_spec` are identical value objects whose tensor-valued fields
(`logits` and `weight`, and the nested `Subnetwork`'s `last_layer` and
`logits`) are randomly initialized tensors derived from `random_seed` (seed
`random_seed * 4`), while the remaining fields are the given `name`,
`iteration_number` 1, `complexity` 1, and an empty `persisted_tensors`
dictionary. -/
theorem weighted_subnetwork_field_values :
    ∀ (name : String) (random_seed : Int) (num_subnetworks : Nat) (bias : Rat)
      (loss adanet_loss : Option TensorOrFloat) (eval_metrics : Option Nat)
      (dict_predictions : Bool) (export_output_key : Option String)
      (subnetwork_builders : Option (List Nat)) (train_op : Option Tensor),
      (dummy_ensemble_spec name random_seed num_subnetworks bias loss adanet_loss
          eval_metrics dict_predictions export_output_key subnetwork_builders
          train_op).ensemble.weighted_subnetworks =
        List.replicate num_subnetworks
          { name := name
            iteration_number := 1
            logits := dummy_tensor [2, 1] (random_seed * 4)
            weight := dummy_tensor [2, 1] (random_seed * 4)
            subnetwork :=
              { last_layer := dummy_tensor [1, 2] (random_seed * 4)
                logits := dummy_tensor [2, 1] (random_seed * 4)
                complexity := 1
                persisted_tensors := [] } } :=
  fun _ _ num_subnetworks _ _ _ _ _ _ _ _ => pyListMul_singleton _ num_subnetworks

/-- C8: for every non-negative `num_subnetworks = n`, the ensemble inside the
spec returned by `dummy_ensemble_spec` has a `weighted_subnetworks` list of
length exactly `n`, and every entry is the same replica — the given `name`,
`iteration_number` 1, and the identical tensor fields. -/
theorem weighted_subnetworks_replicated :
    ∀ (name : String) (random_seed : Int) (num_subnetworks : Nat) (bias : Rat)
      (loss adanet_loss : Option TensorOrFloat) (eval_metrics : Option Nat)
      (dict_predictions : Bool) (export_output_key : Option String)
      (subnetwork_builders : Option (List Nat)) (train_op : Option Tensor),
      (dummy_ensemble_spec name random_seed num_subnetworks bias loss adanet_loss
          eval_metrics dict_predictions export_output_key subnetwork_builders
          train_op).ensemble.weighted_subnetworks.length = num_subnetworks ∧
      ∀ w ∈ (dummy_ensemble_spec name random_seed num_subnetworks bias loss
               adanet_loss eval_metrics dict_predictions export_output_key
               subnetwork_builders train_op).ensemble.weighted_subnetworks,
        w.name = name ∧ w.iteration_number = 1 ∧
        w = { name := name
              iteration_number := 1
              logits := dummy_tensor [2, 1] (random_seed * 4)
              weight := dummy_tensor [2, 1] (random_seed * 4)
              subnetwork :=
                { last_layer := dummy_tensor [1, 2] (random_seed * 4)
                  logits := dummy_tensor [2, 1] (random_seed * 4)
                  complexity := 1
                  persisted_tensors := [] } } := by
  intro name random_seed num_subnetworks bias loss adanet_loss eval_metrics
    dict_predictions export_output_key subnetwork_builders train_op
  have hrep := pyListMul_singleton
    ({ name := name
       iteration_number := 1
       logits := dummy_tensor [2, 1] (random_seed * 4)
       weight := dummy_tensor [2, 1] (random_seed * 4)
       subnetwork :=
         { last_layer := dummy_tensor [1, 2] (random_seed * 4)
           logits := dummy_tensor [2, 1] (random_seed * 4)
           complexity := 1
           persisted_tensors := [] } } : WeightedSubnetwork) num_subnetworks
  constructor
  · show (pyListMul _ num_subnetworks).length = num_subnetworks
    rw [hrep, List.length_replicate]
  · intro w hw
    have hw2 : w ∈ List.replicate num_subnetworks
        ({ name := name
           iteration_number := 1
           logits := dummy_tensor [2, 1] (random_seed * 4)
           weight := dummy_tensor [2, 1] (random_seed * 4)
           subnetwork :=
             { last_layer := dummy_tensor [1, 2] (random_seed * 4)
               logits := dummy_tensor [2, 1] (random_seed * 4)
               complexity := 1
               persisted_tensors := [] } } : WeightedSubnetwork) := by
      rw [← hrep]; exact hw
    have hwe := List.eq_of_mem_replicate hw2
    subst hwe
    exact ⟨rfl, rfl, rfl⟩

/-- C4: `setUp` acquires a fresh `test_subdirectory` unique to the test's id —
removing any pre-existing directory at that path before creating it — and
cleanup is guaranteed: `tearDown` succeeds from the post-`setUp` state and
from any state the run left behind (a failed or partial run included), and
after it the directory no longer exists.  The hypothesis is the real-
filesystem invariant that a missing directory has no descendants. -/
theorem test_subdirectory_scoped_lifecycle (fs : FS) (test_tmpdir test_id : String)
    (hwf : dirExists fs (test_subdirectory test_tmpdir test_id) = false →
           List.filter (fun q => pathWithin (test_subdirectory test_tmpdir test_id) q)
             fs = []) :
    ∃ fs1, AdanetTestCase.setUp fs test_tmpdir test_id = Except.ok fs1 ∧
      dirExists fs1 (test_subdirectory test_tmpdir test_id) = true ∧
      List.filter (fun q => pathWithin (test_subdirectory test_tmpdir test_id) q) fs1 =
        [test_subdirectory test_tmpdir test_id] ∧
      (∃ fs2, AdanetTestCase.tearDown fs1 test_tmpdir test_id = Except.ok fs2 ∧
        dirExists fs2 (test_subdirectory test_tmpdir test_id) = false) ∧
      (∃ fs3, AdanetTestCase.tearDown fs test_tmpdir test_id = Except.ok fs3 ∧
        dirExists fs3 (test_subdirectory test_tmpdir test_id) = false) := by
  cases hex : dirExists fs (test_subdirectory test_tmpdir test_id) with
  | true =>
      refine ⟨test_subdirectory test_tmpdir test_id :: removeTree fs
          (test_subdirectory test_tmpdir test_id), ?_, ?_, ?_, ?_, ?_⟩
      · simp [AdanetTestCase.setUp, shutil_rmtree, os_makedirs, hex,
          dirExists_removeTree_self]
      · simp [dirExists]
      · simp [List.filter_cons, pathWithin_self, filter_removeTree]
      · refine ⟨removeTree (test_subdirectory test_tmpdir test_id :: removeTree fs
            (test_subdirectory test_tmpdir test_id))
            (test_subdirectory test_tmpdir test_id), ?_, ?_⟩
        · simp [AdanetTestCase.tearDown, shutil_rmtree, dirExists]
        · exact dirExists_removeTree_self _ _
      · refine ⟨removeTree fs (test_subdirectory test_tmpdir test_id), ?_, ?_⟩
        · simp [AdanetTestCase.tearDown, shutil_rmtree, hex]
        · exact dirExists_removeTree_self _ _
  | false =>
      refine ⟨test_subdirectory test_tmpdir test_id :: fs, ?_, ?_, ?_, ?_, ?_⟩
      · simp [AdanetTestCase.setUp, shutil_rmtree, os_makedirs, hex]
      · simp [dirExists]
      · simp [List.filter_cons, pathWithin_self, hwf hex]
      · refine ⟨removeTree (test_subdirectory test_tmpdir test_id :: fs)
            (test_subdirectory test_tmpdir test_id), ?_, ?_⟩
        · simp [AdanetTestCase.tearDown, shutil_rmtree, dirExists]
        · exact dirExists_removeTree_self _ _
      · exact ⟨fs, by simp [AdanetTestCase.tearDown, shutil_rmtree, hex], hex⟩

/-- Witness for C4 on a filesystem holding an unrelated directory and a stale
directory at the test's own path. -/
theorem test_subdirectory_scoped_lifecycle_witness :
    ∃ fs1, AdanetTestCase.setUp
        ([os_path_join "tmp" "other", os_path_join "tmp" "t1"] : FS) "tmp" "t1" =
          Except.ok fs1 ∧
      dirExists fs1 (test_subdirectory "tmp" "t1") = true ∧
      List.filter (fun q => pathWithin (test_subdirectory "tmp" "t1") q) fs1 =
        [test_subdirectory "tmp" "t1"] ∧
      (∃ fs2, AdanetTestCase.tearDown fs1 "tmp" "t1" = Except.ok fs2 ∧
        dirExists fs2 (test_subdirectory "tmp" "t1") = false) ∧
      (∃ fs3, AdanetTestCase.tearDown
          ([os_path_join "tmp" "other", os_path_join "tmp" "t1"] : FS) "tmp" "t1" =
            Except.ok fs3 ∧
        dirExists fs3 (test_subdirectory "tmp" "t1") = false) :=
  test_subdirectory_scoped_lifecycle
    [os_path_join "tmp" "other", os_path_join "tmp" "t1"] "tmp" "t1" (by decide)
